import Mathlib

/-!
Shallow embedding of the protocol core of the openeizo HID driver
(src/eizo.c): `eizo_set_value`, `eizo_get_value`, `eizo_data_init` and
`eizo_hid_driver_raw_event`.  The transport primitive `hid_hw_raw_request`
is modelled as an oracle: a state-passing function from a transport call
(report id, buffer contents, length argument, request kind) to a result
(the `int` return value and the buffer contents after the call).
Pointer-validity checks (`IS_ERR`) are modelled on explicit pointer values
so that the NULL/ERR_PTR distinction of the kernel is preserved.
-/

namespace OpenEizo

/-- A byte value carried in a wire buffer (kept as `Nat`; the source reads
and writes `u8` cells, and every value the embedded code stores is already
reduced below 256 by the `&&& 0xff` masks of the source). -/
abbrev Byte := Nat

/-- Linux `IS_ERR`: a pointer whose value lies in the top 4095 addresses of
the 64-bit space encodes a negative errno.  NULL (0) is not an error
pointer, so `IS_ERR 0 = false` — this drives the `kzalloc` bug analysed
below, since `kzalloc` reports failure by returning NULL. -/
def IS_ERR (p : Nat) : Bool := decide (2 ^ 64 - 4095 ≤ p)

/-- A representative valid (non-NULL, non-ERR_PTR) pointer value. -/
def PTR : Nat := 0x1000

/-- The two request kinds of `hid_hw_raw_request` used by the driver:
`HID_REQ_SET_REPORT` and `HID_REQ_GET_REPORT`. -/
inductive HidReq
  | setReport
  | getReport
deriving DecidableEq

/-- One invocation of `hid_hw_raw_request`: the report number, the buffer
contents handed over, the length argument (always 39 in this driver) and
the request kind.  `HID_FEATURE_REPORT` is the only report type the driver
ever passes, so it is left implicit. -/
structure TransportCall where
  reportId : Nat
  buf : List Byte
  bufLen : Nat
  reqType : HidReq
deriving DecidableEq

/-- Result of one transport call: the `int` return value (negative means
failure) and the contents of the caller's buffer after the call (a
GET_REPORT overwrites it with the device response). -/
structure TransportResp where
  ret : Int
  buf : List Byte
deriving DecidableEq

/-- `struct eizo_data` (src/eizo.c, eizo.h): the per-device session state.
The mutex is not a data value; lock/unlock are recorded in the event trace
instead.  Only the 16-bit sequence counter remains as data. -/
structure EizoData where
  counter : Nat
deriving DecidableEq

/-- `eizo_data_init` (src/eizo.c:164): initializes the session with
counter = 0x0001 (the mutex is initialized unlocked). -/
def eizo_data_init : EizoData := { counter := 0x0001 }

/-- Observable events of one call, in program order: mutex acquisition,
mutex release, and transport invocations. -/
inductive Event
  | lock
  | unlock
  | xfer (c : TransportCall)
deriving DecidableEq

/-- Outcome of a call of the embedded C function: either the function
returns an `int`, or execution reaches undefined behaviour (a write or
read through an invalid pointer, or past the end of an allocation), which
is modelled as `crash` — the function never returns in that case. -/
inductive CResult
  | ret (code : Int)
  | crash
deriving DecidableEq

def ENODATA : Int := 61
def ENOMEM : Int := 12

/-- `memcpy(&l[i], src, src.length)` on a buffer modelled as a list:
writes the bytes of `src` at positions `i, i+1, ...`. -/
def memcpyAt : List Byte → Nat → List Byte → List Byte
  | l, _, [] => l
  | l, i, b :: rest => memcpyAt (l.set i b) (i + 1) rest

/-- The request frame exactly as `eizo_set_value`/`eizo_get_value` build it
(src/eizo.c:36-44, 80-86): a zero-filled 39-byte buffer from `kzalloc`,
then usage little-endian in bytes 1-4, counter little-endian in bytes 5-6,
and the payload copied in from byte 7 (`memcpy(&report[7], value, len)`;
the get path copies nothing, i.e. `value = []`). -/
def buildFrame (usage counter : Nat) (value : List Byte) : List Byte :=
  let r := List.replicate 39 0
  let r := r.set 1 ((usage >>> 0) &&& 0xff)
  let r := r.set 2 ((usage >>> 8) &&& 0xff)
  let r := r.set 3 ((usage >>> 16) &&& 0xff)
  let r := r.set 4 ((usage >>> 24) &&& 0xff)
  let r := r.set 5 ((counter >>> 0) &&& 0xff)
  let r := r.set 6 ((counter >>> 8) &&& 0xff)
  memcpyAt r 7 value

/-- `eizo_set_value` (src/eizo.c:17-57).  `tr`/`t0` are the transport
oracle and its state; `drvdata` is the pointer returned by
`hid_get_drvdata` (with `data` its pointee when valid); `report` is the
pointer returned by `kzalloc(39, GFP_KERNEL)` (NULL = 0 when the
allocation failed); `value` is the caller's payload of length `len`.
Returns the C result, the session state after the call, the event trace,
and the final transport state.  The source performs no bound check on
`len`: a payload longer than 32 bytes makes `memcpy(&report[7], value,
len)` write past the 39-byte allocation, which is undefined behaviour
(`crash`), reached after `mutex_lock`. -/
def eizo_set_value {τ : Type} (tr : τ → TransportCall → TransportResp × τ) (t0 : τ)
    (drvdata : Nat) (data : EizoData) (report : Nat)
    (usage : Nat) (value : List Byte) :
    CResult × EizoData × List Event × τ :=
  if IS_ERR drvdata then (.ret (-ENODATA), data, [], t0)
  else if IS_ERR report then (.ret (-ENOMEM), data, [], t0)
  else if drvdata = 0 then (.crash, data, [], t0)
  else if report = 0 then (.crash, data, [.lock], t0)
  else if 39 < 7 + value.length then (.crash, data, [.lock], t0)
  else
    let call : TransportCall := ⟨2, buildFrame usage data.counter value, 39, .setReport⟩
    let r := tr t0 call
    if r.1.ret < 0 then (.ret r.1.ret, data, [.lock, .xfer call, .unlock], r.2)
    else (.ret 0, data, [.lock, .xfer call, .unlock], r.2)

/-- `eizo_get_value` (src/eizo.c:59-107).  Same conventions as
`eizo_set_value`; `value` is the caller's output buffer and `len` the
requested length.  The frame is built with an all-zero payload region, an
arm call (SET_REPORT, id 3) is issued, then a fetch call (GET_REPORT,
id 3) whose response overwrites the report buffer, and finally
`memcpy(value, &report[7], len)` fills the caller's buffer.  The source
performs no bound check on `len`: a length above 32 makes that final
memcpy read past the 39-byte allocation (undefined behaviour).  Returns
the C result, the caller's buffer after the call, the session state, the
event trace, and the final transport state. -/
def eizo_get_value {τ : Type} (tr : τ → TransportCall → TransportResp × τ) (t0 : τ)
    (drvdata : Nat) (data : EizoData) (report : Nat)
    (usage : Nat) (value : List Byte) (len : Nat) :
    CResult × List Byte × EizoData × List Event × τ :=
  if IS_ERR drvdata then (.ret (-ENODATA), value, data, [], t0)
  else if IS_ERR report then (.ret (-ENOMEM), value, data, [], t0)
  else if drvdata = 0 then (.crash, value, data, [], t0)
  else if report = 0 then (.crash, value, data, [.lock], t0)
  else
    let arm : TransportCall := ⟨3, buildFrame usage data.counter [], 39, .setReport⟩
    let ra := tr t0 arm
    if ra.1.ret < 0 then
      (.ret ra.1.ret, value, data, [.lock, .xfer arm, .unlock], ra.2)
    else
      let fetch : TransportCall := ⟨3, ra.1.buf, 39, .getReport⟩
      let rf := tr ra.2 fetch
      if rf.1.ret < 0 then
        (.ret rf.1.ret, value, data, [.lock, .xfer arm, .xfer fetch, .unlock], rf.2)
      else if 39 < 7 + len then
        (.crash, value, data, [.lock, .xfer arm, .xfer fetch], rf.2)
      else
        (.ret 0, memcpyAt value 0 ((rf.1.buf.drop 7).take len), data,
          [.lock, .xfer arm, .xfer fetch, .unlock], rf.2)

/-- A transport oracle on which every call succeeds (returns the buffer
length 39) and leaves the buffer unchanged. -/
def okTransport : Unit → TransportCall → TransportResp × Unit :=
  fun _ c => (⟨39, c.buf⟩, ())

/-- A transport oracle on which every call fails with -EIO (-5). -/
def failTransport : Unit → TransportCall → TransportResp × Unit :=
  fun _ _ => (⟨-5, []⟩, ())

/-- A simulated device that echoes the last-written payload region: its
state is the 32-byte payload region most recently written by a pure write
(SET_REPORT with report id 2); an arm call (SET_REPORT, id 3) selects the
usage without storing a payload; a GET_REPORT returns a response whose
payload region (bytes 7 onward) is the stored region. -/
def echoTransport : List Byte → TransportCall → TransportResp × List Byte :=
  fun store c =>
    match c.reqType with
    | .setReport =>
        if c.reportId = 2 then (⟨39, c.buf⟩, c.buf.drop 7)
        else (⟨39, c.buf⟩, store)
    | .getReport => (⟨39, c.buf.take 7 ++ store⟩, store)

/-- Decoded form of one unsolicited report as logged by the driver. -/
inductive RawEvent
  | known (id usage counter value : Nat)
  | unknown (reportId : Nat)
deriving DecidableEq

/-- `eizo_hid_driver_raw_event` (src/eizo.c:230-252): for report id 2 or
3, extract sub-event id (byte 0), usage (bytes 1-4, assembled with shifts
and ors exactly as the source does), counter (bytes 5-6) and a 32-bit
value (bytes 7-10) and log them; for any other id, log only the id.  The
session state is threaded through untouched — the source never reads or
writes `eizo_data` here.  Returns the logged event, the session state and
the `int` return value (always 0). -/
def eizo_hid_driver_raw_event (data : EizoData) (reportId : Nat) (buf : List Byte) :
    RawEvent × EizoData × Int :=
  if reportId = 0x02 ∨ reportId = 0x03 then
    let id := buf.getD 0 0
    let usage := buf.getD 1 0 ||| (buf.getD 2 0 <<< 8) ||| (buf.getD 3 0 <<< 16)
                   ||| (buf.getD 4 0 <<< 24)
    let counter := buf.getD 5 0 ||| (buf.getD 6 0 <<< 8)
    let value := buf.getD 7 0 ||| (buf.getD 8 0 <<< 8) ||| (buf.getD 9 0 <<< 16)
                   ||| (buf.getD 10 0 <<< 24)
    (.known id usage counter value, data, 0)
  else (.unknown reportId, data, 0)

theorem memcpyAt_length (src : List Byte) : ∀ (l : List Byte) (i : Nat),
    (memcpyAt l i src).length = l.length := by
  induction src with
  | nil => intro l i; rfl
  | cons b rest ih =>
      intro l i
      calc (memcpyAt l i (b :: rest)).length
          = (memcpyAt (l.set i b) (i + 1) rest).length := rfl
        _ = (l.set i b).length := ih (l.set i b) (i + 1)
        _ = l.length := List.length_set l i b

theorem memcpyAt_eq (src : List Byte) : ∀ (l : List Byte) (i : Nat),
    i + src.length ≤ l.length →
    memcpyAt l i src = l.take i ++ src ++ l.drop (i + src.length) := by
  induction src with
  | nil =>
      intro l i _
      simp [memcpyAt]
  | cons b rest ih =>
      intro l i h
      have hi : i < l.length := by simp at h; omega
      have hlen : (i + 1) + rest.length ≤ (l.set i b).length := by
        simp at h ⊢; omega
      have htake : (l.set i b).take (i + 1) = l.take i ++ [b] := by
        rw [List.set_eq_take_cons_drop b hi, List.take_append_eq_append_take]
        have h1 : (l.take i).length = i := by simp; omega
        rw [List.take_of_length_le (by rw [h1]; omega), h1]
        simp
      have hdrop : (l.set i b).drop (i + 1 + rest.length) = l.drop (i + 1 + rest.length) :=
        List.drop_set_of_lt b l (by omega)
      calc memcpyAt l i (b :: rest)
          = memcpyAt (l.set i b) (i + 1) rest := rfl
        _ = (l.set i b).take (i + 1) ++ rest ++ (l.set i b).drop (i + 1 + rest.length) :=
              ih (l.set i b) (i + 1) hlen
        _ = (l.take i ++ [b]) ++ rest ++ l.drop (i + 1 + rest.length) := by
              rw [htake, hdrop]
        _ = l.take i ++ (b :: rest) ++ l.drop (i + (rest.length + 1)) := by
              have harith : i + 1 + rest.length = i + (rest.length + 1) := by omega
              rw [harith]
              simp

/-- Normal form of the 39-byte buffer right before the payload memcpy:
byte 0 zero, usage bytes, counter bytes, then 32 zero bytes. -/
def frameSkeleton (usage counter : Nat) : List Byte :=
  0 :: ((usage >>> 0) &&& 0xff) :: ((usage >>> 8) &&& 0xff) :: ((usage >>> 16) &&& 0xff) ::
  ((usage >>> 24) &&& 0xff) :: ((counter >>> 0) &&& 0xff) :: ((counter >>> 8) &&& 0xff) ::
  List.replicate 32 0

theorem buildFrame_unfold (usage counter : Nat) (value : List Byte) :
    buildFrame usage counter value = memcpyAt (frameSkeleton usage counter) 7 value := rfl

theorem frameSkeleton_length (usage counter : Nat) :
    (frameSkeleton usage counter).length = 39 := by
  simp [frameSkeleton]

theorem buildFrame_length (usage counter : Nat) (value : List Byte) :
    (buildFrame usage counter value).length = 39 := by
  rw [buildFrame_unfold, memcpyAt_length, frameSkeleton_length]

theorem buildFrame_eq (usage counter : Nat) (value : List Byte) (h : value.length ≤ 32) :
    buildFrame usage counter value =
      [0, (usage >>> 0) &&& 0xff, (usage >>> 8) &&& 0xff, (usage >>> 16) &&& 0xff,
       (usage >>> 24) &&& 0xff, (counter >>> 0) &&& 0xff, (counter >>> 8) &&& 0xff] ++
      value ++ List.replicate (32 - value.length) 0 := by
  rw [buildFrame_unfold,
    memcpyAt_eq value (frameSkeleton usage counter) 7 (by rw [frameSkeleton_length]; omega)]
  have htake : (frameSkeleton usage counter).take 7 =
      [0, (usage >>> 0) &&& 0xff, (usage >>> 8) &&& 0xff, (usage >>> 16) &&& 0xff,
       (usage >>> 24) &&& 0xff, (counter >>> 0) &&& 0xff, (counter >>> 8) &&& 0xff] := rfl
  have hdrop : (frameSkeleton usage counter).drop (7 + value.length) =
      List.replicate (32 - value.length) 0 := by
    rw [← List.drop_drop]
    have h7 : (frameSkeleton usage counter).drop 7 = List.replicate 32 0 := rfl
    rw [h7, List.drop_replicate]
  rw [htake, hdrop]

theorem buildFrame_drop7 (usage counter : Nat) (value : List Byte) (h : value.length ≤ 32) :
    (buildFrame usage counter value).drop 7 =
      value ++ List.replicate (32 - value.length) 0 := by
  rw [buildFrame_eq usage counter value h]
  rw [List.drop_append_of_le_length (by simp)]
  simp

theorem eizo_set_value_path {τ : Type} (tr : τ → TransportCall → TransportResp × τ) (t0 : τ)
    (drvdata report : Nat) (data : EizoData) (usage : Nat) (value : List Byte)
    (hd : IS_ERR drvdata = false) (hd0 : drvdata ≠ 0)
    (hr : IS_ERR report = false) (hr0 : report ≠ 0)
    (hlen : value.length ≤ 32) :
    eizo_set_value tr t0 drvdata data report usage value =
      (let call : TransportCall := ⟨2, buildFrame usage data.counter value, 39, .setReport⟩
       let r := tr t0 call
       if r.1.ret < 0 then (CResult.ret r.1.ret, data, [.lock, .xfer call, .unlock], r.2)
       else (CResult.ret 0, data, [.lock, .xfer call, .unlock], r.2)) := by
  unfold eizo_set_value
  rw [hd, hr]
  rw [if_neg (by simp), if_neg (by simp), if_neg hd0, if_neg hr0,
    if_neg (show ¬ 39 < 7 + value.length by omega)]

theorem eizo_get_value_path {τ : Type} (tr : τ → TransportCall → TransportResp × τ) (t0 : τ)
    (drvdata report : Nat) (data : EizoData) (usage : Nat) (value : List Byte) (len : Nat)
    (hd : IS_ERR drvdata = false) (hd0 : drvdata ≠ 0)
    (hr : IS_ERR report = false) (hr0 : report ≠ 0)
    (hlen : len ≤ 32) :
    eizo_get_value tr t0 drvdata data report usage value len =
      (let arm : TransportCall := ⟨3, buildFrame usage data.counter [], 39, .setReport⟩
       let ra := tr t0 arm
       if ra.1.ret < 0 then
         (CResult.ret ra.1.ret, value, data, [.lock, .xfer arm, .unlock], ra.2)
       else
         let fetch : TransportCall := ⟨3, ra.1.buf, 39, .getReport⟩
         let rf := tr ra.2 fetch
         if rf.1.ret < 0 then
           (CResult.ret rf.1.ret, value, data, [.lock, .xfer arm, .xfer fetch, .unlock], rf.2)
         else
           (CResult.ret 0, memcpyAt value 0 ((rf.1.buf.drop 7).take len), data,
             [.lock, .xfer arm, .xfer fetch, .unlock], rf.2)) := by
  unfold eizo_get_value
  rw [hd, hr]
  rw [if_neg (by simp), if_neg (by simp), if_neg hd0, if_neg hr0]
  simp only [if_neg (show ¬ 39 < 7 + len by omega)]

/-- C2: set is bit-exact.  With usage 0x00000001, payload [0xAA, 0xBB] and
stored counter 1, `eizo_set_value` acquires the lock, issues exactly one
transport call — SET_REPORT, report id 2, length argument 39, buffer
`00 01 00 00 00 01 00 AA BB` followed by 30 zero bytes (39 bytes in all:
byte 0 zero, usage little-endian in bytes 1-4, counter little-endian in
bytes 5-6, payload from byte 7, zero padding to byte 38) — releases the
lock and returns 0. -/
theorem c2_set_frame_bit_exact :
    eizo_set_value okTransport () PTR { counter := 1 } PTR 0x00000001 [0xAA, 0xBB] =
      (.ret 0, { counter := 1 },
        [.lock,
         .xfer ⟨2, [0x00, 0x01, 0x00, 0x00, 0x00, 0x01, 0x00, 0xAA, 0xBB] ++
                List.replicate 30 0, 39, .setReport⟩,
         .unlock], ()) ∧
    ([0x00, 0x01, 0x00, 0x00, 0x00, 0x01, 0x00, 0xAA, 0xBB] ++
        (List.replicate 30 (0 : Byte))).length = 39 := by
  constructor
  · rfl
  · rfl

/-- C1: the claim fails on the code — there is no payload-length
validation at all.  At the failing input (payload length 33 > 32), set
does not return -EINVAL: it acquires the mutex and then the memcpy of 33
bytes into byte 7 of the 39-byte frame writes past the allocation
(undefined behaviour, modelled as `crash`, trace `[.lock]`).  Likewise get
with len = 33 acquires the mutex, issues BOTH transport calls and then
over-reads the frame in the final memcpy instead of failing with
-EINVAL up front. -/
theorem c1_oversize_payload_not_rejected :
    (eizo_set_value okTransport () PTR eizo_data_init PTR 1 (List.replicate 33 0xAA) =
      (.crash, eizo_data_init, [.lock], ())) ∧
    (eizo_get_value okTransport () PTR eizo_data_init PTR 1 (List.replicate 33 0) 33 =
      (.crash, List.replicate 33 0, eizo_data_init,
        [.lock, .xfer ⟨3, [0, 1, 0, 0, 0, 1, 0] ++ List.replicate 32 0, 39, .setReport⟩,
         .xfer ⟨3, [0, 1, 0, 0, 0, 1, 0] ++ List.replicate 32 0, 39, .getReport⟩], ())) := by
  constructor
  · rfl
  · rfl

/-- C8: the claim fails on the code.  `kzalloc` signals allocation failure
by returning NULL, but the source guards the allocation with
`IS_ERR(report)`, and `IS_ERR 0 = false` — so on a real allocation
failure the -ENOMEM branch never fires: both functions proceed, lock the
mutex, and dereference the NULL report pointer (undefined behaviour)
instead of returning AllocError. -/
theorem c8_alloc_failure_not_surfaced :
    IS_ERR 0 = false ∧
    (eizo_set_value okTransport () PTR eizo_data_init 0 1 [0xAA] =
      (.crash, eizo_data_init, [.lock], ())) ∧
    (eizo_get_value okTransport () PTR eizo_data_init 0 1 [0, 0] 2 =
      (.crash, [0, 0], eizo_data_init, [.lock], ())) ∧
    (eizo_set_value okTransport () PTR eizo_data_init 0 1 [0xAA]).1 ≠ .ret (-ENOMEM) ∧
    (eizo_get_value okTransport () PTR eizo_data_init 0 1 [0, 0] 2).1 ≠ .ret (-ENOMEM) := by
  refine ⟨rfl, rfl, rfl, ?_, ?_⟩ <;> decide

/-- C6: for every transport behaviour and every valid input (payload at
most 32 bytes, valid session and frame pointers), set issues exactly one
transport call — SET_REPORT, report id 2, length argument 39, on a
39-byte frame — and returns the transport's negative status if that call
fails, otherwise 0, in both cases after releasing the lock. -/
theorem c6_set_single_transport_call {τ : Type}
    (tr : τ → TransportCall → TransportResp × τ) (t0 : τ)
    (drvdata report : Nat) (data : EizoData) (usage : Nat) (value : List Byte)
    (hd : IS_ERR drvdata = false) (hd0 : drvdata ≠ 0)
    (hr : IS_ERR report = false) (hr0 : report ≠ 0)
    (hlen : value.length ≤ 32)
    (call : TransportCall)
    (hcall : call = ⟨2, buildFrame usage data.counter value, 39, .setReport⟩) :
    call.reportId = 2 ∧ call.reqType = .setReport ∧ call.bufLen = 39 ∧
    call.buf.length = 39 ∧
    eizo_set_value tr t0 drvdata data report usage value =
      (if (tr t0 call).1.ret < 0 then
        (.ret (tr t0 call).1.ret, data, [.lock, .xfer call, .unlock], (tr t0 call).2)
       else (.ret 0, data, [.lock, .xfer call, .unlock], (tr t0 call).2)) := by
  subst hcall
  refine ⟨rfl, rfl, rfl, buildFrame_length usage data.counter value, ?_⟩
  rw [eizo_set_value_path tr t0 drvdata report data usage value hd hd0 hr hr0 hlen]

theorem c6_set_single_transport_call_witness :
    eizo_set_value okTransport () PTR { counter := 1 } PTR 1 [0xAA] =
      (.ret 0, { counter := 1 },
       [.lock, .xfer ⟨2, buildFrame 1 1 [0xAA], 39, .setReport⟩, .unlock], ()) :=
  (c6_set_single_transport_call okTransport () PTR PTR { counter := 1 } 1 [0xAA]
    rfl (by decide) rfl (by decide) (by decide) _ rfl).2.2.2.2

/-- C4: on the read path, whenever the arm call (SET_REPORT, report id 3)
fails, the fetch is never issued (the trace holds exactly one transport
event), the lock is released, and get returns the arm call's negative
status unchanged. -/
theorem c4_arm_failure_skips_fetch {τ : Type}
    (tr : τ → TransportCall → TransportResp × τ) (t0 : τ)
    (drvdata report : Nat) (data : EizoData) (usage : Nat) (value : List Byte) (len : Nat)
    (hd : IS_ERR drvdata = false) (hd0 : drvdata ≠ 0)
    (hr : IS_ERR report = false) (hr0 : report ≠ 0)
    (hlen : len ≤ 32)
    (arm : TransportCall)
    (harm : arm = ⟨3, buildFrame usage data.counter [], 39, .setReport⟩)
    (hfail : (tr t0 arm).1.ret < 0) :
    arm.reportId = 3 ∧ arm.reqType = .setReport ∧
    eizo_get_value tr t0 drvdata data report usage value len =
      (.ret (tr t0 arm).1.ret, value, data, [.lock, .xfer arm, .unlock], (tr t0 arm).2) := by
  subst harm
  refine ⟨rfl, rfl, ?_⟩
  rw [eizo_get_value_path tr t0 drvdata report data usage value len hd hd0 hr hr0 hlen]
  simp only [if_pos hfail]

theorem c4_arm_failure_skips_fetch_witness :
    eizo_get_value failTransport () PTR eizo_data_init PTR 1 [0, 0] 2 =
      (.ret (-5), [0, 0], eizo_data_init,
       [.lock, .xfer ⟨3, buildFrame 1 1 [], 39, .setReport⟩, .unlock], ()) :=
  (c4_arm_failure_skips_fetch failTransport () PTR PTR eizo_data_init 1 [0, 0] 2
    rfl (by decide) rfl (by decide) (by decide) _ rfl (by decide)).2.2

/-- True exactly on the mutex events of a trace. -/
def isTok : Event → Bool
  | .lock => true
  | .unlock => true
  | .xfer _ => false

/-- The mutex discipline of one call: either the mutex is never touched
(the call failed before `mutex_lock`), or it is acquired exactly once and
released before the call returns. -/
def tokenBalanced (t : List Event) : Prop :=
  t.filter isTok = [] ∨ t.filter isTok = [.lock, .unlock]

/-- C5: neither set nor get ever returns while holding the mutex.  For
every transport behaviour, pointer situation and argument, on every path
on which the function returns (the undefined-behaviour paths do not
return), the trace either never acquires the mutex, or acquires it once
and releases it before returning. -/
theorem c5_never_returns_holding_lock {τ : Type}
    (tr : τ → TransportCall → TransportResp × τ) (t0 : τ)
    (drvdata report : Nat) (data : EizoData) (usage : Nat)
    (value vbuf : List Byte) (len : Nat) :
    ((eizo_set_value tr t0 drvdata data report usage value).1 ≠ .crash →
      tokenBalanced (eizo_set_value tr t0 drvdata data report usage value).2.2.1) ∧
    ((eizo_get_value tr t0 drvdata data report usage vbuf len).1 ≠ .crash →
      tokenBalanced (eizo_get_value tr t0 drvdata data report usage vbuf len).2.2.2.1) := by
  constructor
  · simp only [eizo_set_value]
    repeat' split
    all_goals intro h
    all_goals first
      | exact absurd rfl h
      | exact Or.inl rfl
      | exact Or.inr rfl
  · simp only [eizo_get_value]
    repeat' split
    all_goals intro h
    all_goals first
      | exact absurd rfl h
      | exact Or.inl rfl
      | exact Or.inr rfl

theorem c5_never_returns_holding_lock_witness :
    tokenBalanced (eizo_set_value okTransport () PTR eizo_data_init PTR 1 [0xAA]).2.2.1 :=
  (c5_never_returns_holding_lock okTransport () PTR PTR eizo_data_init 1 [0xAA] [0, 0] 2).1
    (by decide)

theorem eizo_set_value_data_unchanged {τ : Type}
    (tr : τ → TransportCall → TransportResp × τ) (t0 : τ)
    (drvdata report : Nat) (data : EizoData) (usage : Nat) (value : List Byte) :
    (eizo_set_value tr t0 drvdata data report usage value).2.1 = data := by
  simp only [eizo_set_value]
  repeat' split
  all_goals rfl

theorem eizo_get_value_data_unchanged {τ : Type}
    (tr : τ → TransportCall → TransportResp × τ) (t0 : τ)
    (drvdata report : Nat) (data : EizoData) (usage : Nat) (vbuf : List Byte) (len : Nat) :
    (eizo_get_value tr t0 drvdata data report usage vbuf len).2.2.1 = data := by
  simp only [eizo_get_value]
  repeat' split
  all_goals rfl

/-- Session states reachable from `eizo_data_init` by any sequence of set
and get calls, over arbitrary transports, pointer situations and
arguments. -/
inductive ReachableEizoData : EizoData → Prop
  | init : ReachableEizoData eizo_data_init
  | set {d : EizoData} (τ : Type) (tr : τ → TransportCall → TransportResp × τ) (t0 : τ)
      (drvdata report usage : Nat) (value : List Byte) :
      ReachableEizoData d →
      ReachableEizoData (eizo_set_value tr t0 drvdata d report usage value).2.1
  | get {d : EizoData} (τ : Type) (tr : τ → TransportCall → TransportResp × τ) (t0 : τ)
      (drvdata report usage : Nat) (vbuf : List Byte) (len : Nat) :
      ReachableEizoData d →
      ReachableEizoData (eizo_get_value tr t0 drvdata d report usage vbuf len).2.2.1

/-- C7: `eizo_data_init` sets the counter to 1; every set and get call
leaves the stored counter unchanged, so in every reachable session state
the counter equals 1; and the frame built by every call carries that
counter in bytes 5 and 6 (little-endian: byte 5 holds 1, byte 6 holds
0). -/
theorem c7_counter_always_one (d : EizoData) (h : ReachableEizoData d) :
    d.counter = 1 ∧
    (∀ {τ : Type} (tr : τ → TransportCall → TransportResp × τ) (t0 : τ)
        (drvdata report usage : Nat) (value : List Byte),
        (eizo_set_value tr t0 drvdata d report usage value).2.1 = d) ∧
    (∀ {τ : Type} (tr : τ → TransportCall → TransportResp × τ) (t0 : τ)
        (drvdata report usage : Nat) (vbuf : List Byte) (len : Nat),
        (eizo_get_value tr t0 drvdata d report usage vbuf len).2.2.1 = d) ∧
    (∀ (usage : Nat) (value : List Byte), value.length ≤ 32 →
        (buildFrame usage d.counter value).getD 5 0 = 1 ∧
        (buildFrame usage d.counter value).getD 6 0 = 0) := by
  have hc : d.counter = 1 := by
    induction h with
    | init => rfl
    | set τ tr t0 drvdata report usage value _ ih =>
        rw [eizo_set_value_data_unchanged]; exact ih
    | get τ tr t0 drvdata report usage vbuf len _ ih =>
        rw [eizo_get_value_data_unchanged]; exact ih
  refine ⟨hc, ?_, ?_, ?_⟩
  · intro τ tr t0 drvdata report usage value
    exact eizo_set_value_data_unchanged tr t0 drvdata report d usage value
  · intro τ tr t0 drvdata report usage vbuf len
    exact eizo_get_value_data_unchanged tr t0 drvdata report d usage vbuf len
  · intro usage value hlen
    rw [hc, buildFrame_eq usage 1 value hlen]
    constructor
    · rfl
    · rfl

theorem c7_counter_always_one_witness : eizo_data_init.counter = 1 :=
  (c7_counter_always_one eizo_data_init ReachableEizoData.init).1

/-- C10: whenever get returns an error — from the drvdata lookup, the
frame-allocation guard, or either transport call — the caller's output
buffer is returned completely unmodified; and on the paths that do not
return at all (undefined behaviour) no byte has been written to it
either: the buffer is written only on the path where both transport calls
succeeded. -/
theorem c10_error_leaves_output_buffer_untouched {τ : Type}
    (tr : τ → TransportCall → TransportResp × τ) (t0 : τ)
    (drvdata report : Nat) (data : EizoData) (usage : Nat) (vbuf : List Byte) (len : Nat) :
    (∀ c : Int, c ≠ 0 →
      (eizo_get_value tr t0 drvdata data report usage vbuf len).1 = .ret c →
      (eizo_get_value tr t0 drvdata data report usage vbuf len).2.1 = vbuf) ∧
    ((eizo_get_value tr t0 drvdata data report usage vbuf len).1 = .crash →
      (eizo_get_value tr t0 drvdata data report usage vbuf len).2.1 = vbuf) := by
  constructor
  · intro c hc
    simp only [eizo_get_value]
    repeat' split
    all_goals intro h
    all_goals first
      | rfl
      | (injection h with h'; exact absurd h'.symm hc)
  · simp only [eizo_get_value]
    repeat' split
    all_goals intro h
    all_goals first
      | rfl
      | exact CResult.noConfusion h

theorem c10_error_leaves_output_buffer_untouched_witness :
    (eizo_get_value failTransport () PTR eizo_data_init PTR 1 [7, 7] 2).2.1 = [7, 7] :=
  (c10_error_leaves_output_buffer_untouched failTransport () PTR PTR eizo_data_init
    1 [7, 7] 2).1 (-5) (by decide) rfl

/-- C3: round-trip law.  For every usage code, every payload of length at
most 32, every session state and every initial device store, set followed
by get with the same usage and length, against the echoing simulated
transport, succeeds and returns exactly the bytes that were written. -/
theorem c3_set_get_roundtrip (store0 : List Byte) (usage : Nat) (value : List Byte)
    (h : value.length ≤ 32) (d : EizoData) :
    (eizo_set_value echoTransport store0 PTR d PTR usage value).1 = .ret 0 ∧
    (eizo_get_value echoTransport
       (eizo_set_value echoTransport store0 PTR d PTR usage value).2.2.2
       PTR d PTR usage (List.replicate value.length 0) value.length).1 = .ret 0 ∧
    (eizo_get_value echoTransport
       (eizo_set_value echoTransport store0 PTR d PTR usage value).2.2.2
       PTR d PTR usage (List.replicate value.length 0) value.length).2.1 = value := by
  have hset : eizo_set_value echoTransport store0 PTR d PTR usage value =
      (.ret 0, d,
       [.lock, .xfer ⟨2, buildFrame usage d.counter value, 39, .setReport⟩, .unlock],
       (buildFrame usage d.counter value).drop 7) := by
    rw [eizo_set_value_path echoTransport store0 PTR PTR d usage value rfl (by decide) rfl
      (by decide) h]
    rfl
  have hS : (buildFrame usage d.counter value).drop 7 =
      value ++ List.replicate (32 - value.length) 0 :=
    buildFrame_drop7 usage d.counter value h
  have harg : (eizo_set_value echoTransport store0 PTR d PTR usage value).2.2.2 =
      value ++ List.replicate (32 - value.length) 0 := by
    rw [hset]; exact hS
  have hget : eizo_get_value echoTransport (value ++ List.replicate (32 - value.length) 0)
      PTR d PTR usage (List.replicate value.length 0) value.length =
      (.ret 0,
       memcpyAt (List.replicate value.length 0) 0
         ((((buildFrame usage d.counter []).take 7 ++
            (value ++ List.replicate (32 - value.length) 0)).drop 7).take value.length),
       d,
       [.lock, .xfer ⟨3, buildFrame usage d.counter [], 39, .setReport⟩,
        .xfer ⟨3, buildFrame usage d.counter [], 39, .getReport⟩, .unlock],
       value ++ List.replicate (32 - value.length) 0) := by
    rw [eizo_get_value_path echoTransport (value ++ List.replicate (32 - value.length) 0)
      PTR PTR d usage (List.replicate value.length 0) value.length rfl (by decide) rfl
      (by decide) h]
    rfl
  have e1 : (((buildFrame usage d.counter []).take 7) ++
      (value ++ List.replicate (32 - value.length) 0)).drop 7 =
      value ++ List.replicate (32 - value.length) 0 := by
    apply List.drop_left'
    simp [List.length_take, buildFrame_length]
  have e2 : (value ++ List.replicate (32 - value.length) 0).take value.length = value :=
    List.take_left' rfl
  have e3 : memcpyAt (List.replicate value.length 0) 0 value = value := by
    rw [memcpyAt_eq value (List.replicate value.length 0) 0 (by simp)]
    simp
  refine ⟨?_, ?_, ?_⟩
  · rw [hset]
  · rw [harg, hget]
  · rw [harg, hget, e1, e2]
    exact e3

theorem c3_set_get_roundtrip_witness :
    ((eizo_set_value echoTransport (List.replicate 32 0) PTR ⟨1⟩ PTR 1 [0xAA, 0xBB]).1 =
      .ret 0) ∧
    ((eizo_get_value echoTransport
        (eizo_set_value echoTransport (List.replicate 32 0) PTR ⟨1⟩ PTR 1 [0xAA, 0xBB]).2.2.2
        PTR ⟨1⟩ PTR 1 (List.replicate 2 0) 2).1 = .ret 0) ∧
    ((eizo_get_value echoTransport
        (eizo_set_value echoTransport (List.replicate 32 0) PTR ⟨1⟩ PTR 1 [0xAA, 0xBB]).2.2.2
        PTR ⟨1⟩ PTR 1 (List.replicate 2 0) 2).2.1 = [0xAA, 0xBB]) :=
  c3_set_get_roundtrip (List.replicate 32 0) 1 [0xAA, 0xBB] (by decide) ⟨1⟩

theorem lor_shiftLeft_eq_add (a b k : Nat) (h : a < 2 ^ k) :
    a ||| b <<< k = a + b * 2 ^ k := by
  apply Nat.eq_of_testBit_eq
  intro j
  rw [Nat.testBit_lor, Nat.shiftLeft_eq, Nat.add_comm a (b * 2 ^ k), Nat.mul_comm b (2 ^ k),
    Nat.testBit_mul_pow_two_add b h j, Nat.testBit_mul_pow_two]
  rcases Nat.lt_or_ge j k with hj | hj
  · simp [hj, Nat.not_le_of_lt hj]
  · have ha : a.testBit j = false :=
      Nat.testBit_lt_two_pow (Nat.lt_of_lt_of_le h (Nat.pow_le_pow_right (by norm_num) hj))
    simp [ha, hj, Nat.not_lt_of_le hj]

theorem le16_decode (b1 b2 : Nat) (h1 : b1 < 256) (h2 : b2 < 256) :
    b1 ||| b2 <<< 8 = b1 + 256 * b2 := by
  rw [lor_shiftLeft_eq_add b1 b2 8 (by norm_num; omega)]
  norm_num
  omega

theorem le32_decode (b1 b2 b3 b4 : Nat)
    (h1 : b1 < 256) (h2 : b2 < 256) (h3 : b3 < 256) (h4 : b4 < 256) :
    b1 ||| b2 <<< 8 ||| b3 <<< 16 ||| b4 <<< 24 =
      b1 + 256 * b2 + 65536 * b3 + 16777216 * b4 := by
  have e1 : b1 ||| b2 <<< 8 = b1 + b2 * 2 ^ 8 :=
    lor_shiftLeft_eq_add b1 b2 8 (by norm_num; omega)
  have e2 : b1 + b2 * 2 ^ 8 ||| b3 <<< 16 = b1 + b2 * 2 ^ 8 + b3 * 2 ^ 16 :=
    lor_shiftLeft_eq_add _ b3 16 (by norm_num; omega)
  have e3 : b1 + b2 * 2 ^ 8 + b3 * 2 ^ 16 ||| b4 <<< 24 =
      b1 + b2 * 2 ^ 8 + b3 * 2 ^ 16 + b4 * 2 ^ 24 :=
    lor_shiftLeft_eq_add _ b4 24 (by norm_num; omega)
  rw [e1, e2, e3]
  norm_num
  omega

/-- C9: for every unsolicited report with identifier 2 or 3 whose bytes
are in range, the decoder logs the sub-event id from byte 0, the usage as
the 32-bit little-endian value of bytes 1-4, the counter as the 16-bit
little-endian value of bytes 5-6 and the value as the 32-bit little-endian
value of bytes 7-10, leaving the session state untouched; for every other
identifier it logs only the identifier, also leaving the state
untouched. -/
theorem c9_raw_event_decode (data : EizoData) (reportId : Nat) (buf : List Byte)
    (hb : ∀ i, buf.getD i 0 < 256) :
    (reportId = 2 ∨ reportId = 3 →
      eizo_hid_driver_raw_event data reportId buf =
        (.known (buf.getD 0 0)
          (buf.getD 1 0 + 256 * buf.getD 2 0 + 65536 * buf.getD 3 0 +
            16777216 * buf.getD 4 0)
          (buf.getD 5 0 + 256 * buf.getD 6 0)
          (buf.getD 7 0 + 256 * buf.getD 8 0 + 65536 * buf.getD 9 0 +
            16777216 * buf.getD 10 0),
         data, 0)) ∧
    (¬(reportId = 2 ∨ reportId = 3) →
      eizo_hid_driver_raw_event data reportId buf = (.unknown reportId, data, 0)) := by
  constructor
  · intro hid
    unfold eizo_hid_driver_raw_event
    rw [if_pos hid,
      le32_decode _ _ _ _ (hb 1) (hb 2) (hb 3) (hb 4),
      le16_decode _ _ (hb 5) (hb 6),
      le32_decode _ _ _ _ (hb 7) (hb 8) (hb 9) (hb 10)]
  · intro hid
    unfold eizo_hid_driver_raw_event
    rw [if_neg hid]

theorem c9_raw_event_decode_witness :
    eizo_hid_driver_raw_event eizo_data_init 2 [1, 0x57, 0, 1, 0, 0x2A, 0, 100, 0, 0, 0] =
      (.known 1 (0x57 + 256 * 0 + 65536 * 1 + 16777216 * 0) (0x2A + 256 * 0)
        (100 + 256 * 0 + 65536 * 0 + 16777216 * 0), eizo_data_init, 0) :=
  (c9_raw_event_decode eizo_data_init 2 [1, 0x57, 0, 1, 0, 0x2A, 0, 100, 0, 0, 0]
    (by
      intro i
      rcases i with _ | _ | _ | _ | _ | _ | _ | _ | _ | _ | _ | i <;>
        simp [List.getD])).1 (Or.inl rfl)

end OpenEizo
